import Mathlib

/-!
Verification of the Nested backend (netlify/functions): the like-toggle
state machine, the schema-provisioning guard, and the login / error
handlers, shallowly embedded from the JavaScript source.

The relational store is modelled explicitly: the `property_likes` table is
a list of rows plus a SERIAL counter; SQL statements used by the handlers
(`SELECT ... WHERE property_id = $p AND user_id = $u`, `UPDATE ... WHERE
id = $i`, `INSERT`) become list operations.  Request-body values are
modelled as JavaScript values with JS truthiness, since the handlers
validate with `if (!propertyId || !userId)`.
-/

set_option maxRecDepth 4000

namespace Nested

/-- A JavaScript value as it appears in a parsed JSON request body.
`none` at the `Option JSValue` level models an absent field (undefined). -/
inductive JSValue where
  | num : Int → JSValue
  | str : String → JSValue
  | bool : Bool → JSValue
  | null : JSValue
deriving DecidableEq, Repr

/-- JavaScript truthiness: `0`, the empty string, `false` and `null` are
falsy; every other number, string and `true` are truthy. -/
def JSValue.truthy : JSValue → Bool
  | .num n => n != 0
  | .str s => !s.isEmpty
  | .bool b => b
  | .null => false

/-- Truthiness of a possibly-absent field: `undefined` is falsy, so
`!propertyId` succeeds both on a missing field and on a falsy value. -/
def optTruthy : Option JSValue → Bool
  | none => false
  | some v => v.truthy

/-- One row of the `property_likes` table:
`(id SERIAL PRIMARY KEY, property_id, user_id, liked BOOLEAN)`. -/
structure LikeRow where
  id : Nat
  property_id : JSValue
  user_id : JSValue
  liked : Bool
deriving DecidableEq, Repr

/-- The `property_likes` table: its rows plus the SERIAL counter that
assigns the next `id`. -/
structure LikesTable where
  rows : List LikeRow
  nextId : Nat
deriving DecidableEq, Repr

/-- The empty `property_likes` table (fresh store). -/
def emptyLikes : LikesTable := { rows := [], nextId := 1 }

/-- `SELECT id, liked FROM property_likes WHERE property_id = p AND
user_id = u` (like.js line 61): the rows whose pair matches. -/
def selectLike (t : LikesTable) (p u : JSValue) : List LikeRow :=
  t.rows.filter (fun r => r.property_id == p && r.user_id == u)

/-- `UPDATE property_likes SET liked = v WHERE id = i` (like.js line 65):
rewrites the `liked` flag of every row whose `id` matches, in place. -/
def updateLikedById (t : LikesTable) (i : Nat) (v : Bool) : LikesTable :=
  { t with rows := t.rows.map (fun r => if r.id == i then { r with liked := v } else r) }

/-- `INSERT INTO property_likes (property_id, user_id, liked) VALUES
(p, u, v)` (like.js line 68): appends a fresh row with the next SERIAL id. -/
def insertLike (t : LikesTable) (p u : JSValue) (v : Bool) : LikesTable :=
  { rows := t.rows ++ [{ id := t.nextId, property_id := p, user_id := u, liked := v }],
    nextId := t.nextId + 1 }

/-- The toggle algorithm of like.js lines 61-69, after validation:
look up the existing record; if one exists (`existing.length > 0`) negate
its `liked` (`existing[0]`) and update that row by id; otherwise insert a
new row with `liked = true`.  Returns the new table and the `liked`
value sent back to the client. -/
def toggleCore (t : LikesTable) (p u : JSValue) : LikesTable × Bool :=
  match selectLike t p u with
  | [] => (insertLike t p u true, true)
  | r :: _ => (updateLikedById t r.id (!r.liked), !r.liked)

/-- The parsed JSON body of a like request: `const { propertyId, userId }
= body || {}` — each field is present (`some`) or undefined (`none`). -/
structure LikeBody where
  propertyId : Option JSValue
  userId : Option JSValue
deriving DecidableEq, Repr

/-- The response of the like endpoint: 200 with the pair and the resulting
`liked`, or 400 with an error message. -/
inductive LikeResult where
  | success (propertyId userId : JSValue) (liked : Bool)
  | validationError (msg : String)
deriving DecidableEq, Repr

/-- HTTP status of a like response. -/
def LikeResult.status : LikeResult → Nat
  | .success _ _ _ => 200
  | .validationError _ => 400

/-- The POST handler of like.js lines 53-73 (after JSON parsing): if
`!propertyId || !userId` respond 400 without touching the table, else run
the toggle and respond 200 with `{ propertyId, userId, liked }`. -/
def likeHandler (t : LikesTable) (b : LikeBody) : LikesTable × LikeResult :=
  match b.propertyId, b.userId with
  | some p, some u =>
    if p.truthy && u.truthy then
      let res := toggleCore t p u
      (res.1, .success p u res.2)
    else
      (t, .validationError "propertyId and userId are required")
  | _, _ => (t, .validationError "propertyId and userId are required")

/-- Number of `property_likes` rows stored for a given pair. -/
def pairCount (t : LikesTable) (p u : JSValue) : Nat :=
  (selectLike t p u).length

/-- The stored like state of a pair: `none` when absent, `some b` when a
row with `liked = b` exists. -/
def likedState (t : LikesTable) (p u : JSValue) : Option Bool :=
  match selectLike t p u with
  | [] => none
  | r :: _ => some r.liked

/-- Run a sequence of (already validated) toggle operations. -/
def runToggles (t : LikesTable) : List (JSValue × JSValue) → LikesTable
  | [] => t
  | (p, u) :: ops => runToggles (toggleCore t p u).1 ops

/-- Run a sequence of like requests through the full handler. -/
def runLike (t : LikesTable) : List LikeBody → LikesTable
  | [] => t
  | b :: bs => runLike (likeHandler t b).1 bs

/-- `toggleCore` iterated `n` times on the same pair. -/
def toggleIter (t : LikesTable) (p u : JSValue) : Nat → LikesTable
  | 0 => t
  | n + 1 => (toggleCore (toggleIter t p u n) p u).1

/-! ### The read / write phases of the toggle, for the concurrency model

The handler's toggle is a read (the SELECT of line 61) followed by a write
(the UPDATE of line 65 or the INSERT of line 68); the two statements are
separate round-trips to the store, so two concurrent requests may
interleave them. -/

/-- The read phase: the SELECT of like.js line 61. -/
def toggleRead (t : LikesTable) (p u : JSValue) : List LikeRow :=
  selectLike t p u

/-- The write phase: given the rows the request read earlier, either the
UPDATE of line 65 or the INSERT of line 68. -/
def toggleWrite (t : LikesTable) (p u : JSValue) (readRows : List LikeRow) :
    LikesTable × Bool :=
  match readRows with
  | [] => (insertLike t p u true, true)
  | r :: _ => (updateLikedById t r.id (!r.liked), !r.liked)

/-- The store state produced by two concurrent toggles of the same pair
that both read before either writes (read1, read2, write1, write2),
started from `t`. -/
def racedToggles (t : LikesTable) (p u : JSValue) : LikesTable :=
  let r1 := toggleRead t p u
  let r2 := toggleRead t p u
  let t1 := (toggleWrite t p u r1).1
  (toggleWrite t1 p u r2).1

/-! ### Schema guard

`CREATE TABLE IF NOT EXISTS` statements modelled over an explicit schema
state: a list of tables, each a name plus the column definitions as
written in the statement. -/

/-- A table as declared by a CREATE TABLE statement: its name and its
column definitions, verbatim. -/
structure TableSpec where
  name : String
  columns : List String
deriving DecidableEq, Repr

/-- The schema state of the store: the tables that exist. -/
abbrev Schema := List TableSpec

/-- Whether a table with the given name exists. -/
def hasTable (s : Schema) (n : String) : Bool :=
  s.any (fun t => t.name == n)

/-- `CREATE TABLE IF NOT EXISTS`: a no-op when the table exists (no error,
no alteration), otherwise the table is created. -/
def createTableIfNotExists (s : Schema) (t : TableSpec) : Schema :=
  if hasTable s t.name then s else s ++ [t]

/-- The `users` table as declared by ensureUsersTable (register.js /
login.js lines 5-13 / 11-19) and ensureTables (like.js lines 14-20). -/
def usersTable : TableSpec :=
  { name := "users",
    columns :=
      ["id SERIAL PRIMARY KEY",
       "username VARCHAR(255) UNIQUE NOT NULL",
       "email VARCHAR(255) UNIQUE",
       "password VARCHAR(255) NOT NULL",
       "name VARCHAR(255)"] }

/-- The `properties` table as declared by ensurePropertiesTable
(properties.js lines 4-14) and ensureTables (like.js lines 21-29). -/
def propertiesTable : TableSpec :=
  { name := "properties",
    columns :=
      ["id SERIAL PRIMARY KEY",
       "title VARCHAR(255) NOT NULL",
       "description TEXT",
       "price NUMERIC",
       "location VARCHAR(255)",
       "image TEXT",
       "address VARCHAR(255)"] }

/-- The `property_likes` table as declared by ensureTables (like.js lines
30-36), with the uniqueness constraint on the pair. -/
def propertyLikesTable : TableSpec :=
  { name := "property_likes",
    columns :=
      ["id SERIAL PRIMARY KEY",
       "property_id INTEGER REFERENCES properties(id) ON DELETE CASCADE",
       "user_id INTEGER REFERENCES users(id) ON DELETE CASCADE",
       "liked BOOLEAN NOT NULL DEFAULT true",
       "UNIQUE(property_id, user_id)"] }

/-- The `contacts` table as declared by ensureContactsTable (contact.js
lines 10-18). -/
def contactsTable : TableSpec :=
  { name := "contacts",
    columns :=
      ["id SERIAL PRIMARY KEY",
       "name VARCHAR(255)",
       "email VARCHAR(255)",
       "message TEXT NOT NULL",
       "created_at TIMESTAMPTZ DEFAULT NOW()"] }

/-- ensureTables of like.js lines 12-37: three `CREATE TABLE IF NOT
EXISTS` statements, in order (users, properties, property_likes). -/
def ensureTables (s : Schema) : Schema :=
  createTableIfNotExists
    (createTableIfNotExists (createTableIfNotExists s usersTable) propertiesTable)
    propertyLikesTable

/-- ensurePropertiesTable of properties.js lines 4-14. -/
def ensurePropertiesTable (s : Schema) : Schema :=
  createTableIfNotExists s propertiesTable

/-- ensureUsersTable of register.js lines 5-13 / login.js lines 11-19. -/
def ensureUsersTable (s : Schema) : Schema :=
  createTableIfNotExists s usersTable

/-- ensureContactsTable of contact.js lines 10-18. -/
def ensureContactsTable (s : Schema) : Schema :=
  createTableIfNotExists s contactsTable

/-! ### Error propagation (catch branches) and the two login handlers -/

/-- A store failure as caught by the handlers' catch branches: the thrown
error's `message` property (`none` models an error without a usable
message, covering both a falsy `err` and a falsy `err.message`). -/
structure StoreError where
  message : Option String
deriving DecidableEq, Repr

/-- The body text computed by the catch branches of properties.js line 80
and the register.js login variant line 121:
`err && err.message ? err.message : 'Server error'`. -/
def catchBody (e : StoreError) : String :=
  match e.message with
  | some m => if m.isEmpty then "Server error" else m
  | none => "Server error"

/-- The 500 response of the catch branches (properties.js lines 76-82,
register.js login variant lines 117-123): status plus the error string
placed in the JSON body. -/
def catchResponse (e : StoreError) : Nat × String :=
  (500, catchBody e)

/-- One row of the `users` table. -/
structure UserRow where
  id : Nat
  username : String
  email : Option String
  password : String
  name : Option String
deriving DecidableEq, Repr

/-- An HTTP response reduced to what the login claims compare: the status
code and the error/info message string of the JSON body. -/
structure LoginResponse where
  status : Nat
  message : String
deriving DecidableEq, Repr

/-- `SELECT * FROM users WHERE username = x OR email = x` (register.js
login variant line 96): rows matching the credential string on either
column. -/
def usersWhereEither (users : List UserRow) (x : String) : List UserRow :=
  users.filter (fun r => r.username == x || r.email == some x)

/-- `SELECT ... FROM users WHERE username = u OR email = e` (login.js
line 43): an absent parameter is passed as SQL NULL, which matches no
row. -/
def usersWhereBoth (users : List UserRow) (username email : Option String) :
    List UserRow :=
  users.filter (fun r =>
    (match username with
     | some u => r.username == u
     | none => false)
    ||
    (match email with
     | some e => r.email == some e
     | none => false))

/-- JS truthiness of a possibly-absent string field (`!x`): absent and
empty are falsy. -/
def strTruthy : Option String → Bool
  | none => false
  | some s => !s.isEmpty

/-- `body.username || body.email` (register.js login variant line 79):
the first truthy of the two. -/
def firstTruthy (a b : Option String) : Option String :=
  if strTruthy a then a else b

/-- The login handler of login.js lines 35-56: validation
(`!password || (!username && !email)` → 400), then a single lookup on
username OR email; an empty result or a password mismatch both yield
401 "Invalid credentials"; a match yields 200. -/
def loginHandler (users : List UserRow) (username email password : Option String) :
    LoginResponse :=
  if !strTruthy password || (!strTruthy username && !strTruthy email) then
    { status := 400, message := "Email or username and password are required" }
  else
    match usersWhereBoth users username email with
    | [] => { status := 401, message := "Invalid credentials" }
    | r :: _ =>
      if some r.password != password then
        { status := 401, message := "Invalid credentials" }
      else
        { status := 200, message := "Login successful" }

/-- The login variant of register.js lines 79-116: validation of
`usernameOrEmail = body.username || body.email` and of `password`, then a
lookup; an empty result yields 404 "User not found", a password mismatch
yields 401 "Invalid password", a match yields 200. -/
def loginVariantB (users : List UserRow) (username email password : Option String) :
    LoginResponse :=
  match firstTruthy username email with
  | none => { status := 400, message := "Missing username or email" }
  | some usernameOrEmail =>
    if usernameOrEmail.isEmpty then
      { status := 400, message := "Missing username or email" }
    else if !strTruthy password then
      { status := 400, message := "Missing password" }
    else
      match usersWhereEither users usernameOrEmail with
      | [] => { status := 404, message := "User not found" }
      | r :: _ =>
        if some r.password != password then
          { status := 401, message := "Invalid password" }
        else
          { status := 200, message := "" }

/-! ## Lemmas about the store operations -/

/-- Updating a row's `liked` by id does not change which rows a pair
SELECT returns, only their `liked` fields. -/
lemma selectLike_update (t : LikesTable) (i : Nat) (v : Bool) (p u : JSValue) :
    selectLike (updateLikedById t i v) p u =
      (selectLike t p u).map (fun r => if r.id == i then { r with liked := v } else r) := by
  unfold selectLike updateLikedById
  rw [List.filter_map]
  congr 1
  apply List.filter_congr
  intro r _
  by_cases h : r.id = i <;> simp [h]

/-- A pair SELECT after an INSERT returns the old rows plus the new row
exactly when the new row's pair matches. -/
lemma selectLike_insert (t : LikesTable) (pq uq p u : JSValue) (v : Bool) :
    selectLike (insertLike t pq uq v) p u =
      selectLike t p u ++
        (if pq == p && uq == u then [⟨t.nextId, pq, uq, v⟩] else []) := by
  unfold selectLike insertLike
  rw [List.filter_append]
  congr 1
  by_cases h1 : pq == p <;> by_cases h2 : uq == u <;>
    simp [List.filter, h1, h2]

/-- How one toggle changes the row count of an arbitrary pair: it adds a
row for the toggled pair exactly when that pair had none, and otherwise
changes no count. -/
lemma pairCount_toggleCore (t : LikesTable) (pq uq p u : JSValue) :
    pairCount (toggleCore t pq uq).1 p u =
      if pq = p ∧ uq = u ∧ pairCount t pq uq = 0 then pairCount t p u + 1
      else pairCount t p u := by
  unfold toggleCore
  cases hsel : selectLike t pq uq with
  | nil =>
    have hc : pairCount t pq uq = 0 := by rw [pairCount, hsel]; rfl
    simp only []
    by_cases h1 : pq = p
    · by_cases h2 : uq = u
      · have hcond : pq = p ∧ uq = u ∧ pairCount t pq uq = 0 := ⟨h1, h2, hc⟩
        rw [if_pos hcond, pairCount, selectLike_insert]
        have hbeq : (pq == p && uq == u) = true := by
          rw [Bool.and_eq_true, beq_iff_eq, beq_iff_eq]
          exact ⟨h1, h2⟩
        rw [hbeq, if_pos rfl, List.length_append]
        rfl
      · have hcond : ¬(pq = p ∧ uq = u ∧ pairCount t pq uq = 0) := fun hx => h2 hx.2.1
        rw [if_neg hcond, pairCount, selectLike_insert]
        have hbeq : (pq == p && uq == u) = false := by simp [h2]
        rw [hbeq, if_neg Bool.false_ne_true, List.append_nil]
        rfl
    · have hcond : ¬(pq = p ∧ uq = u ∧ pairCount t pq uq = 0) := fun hx => h1 hx.1
      rw [if_neg hcond, pairCount, selectLike_insert]
      have hbeq : (pq == p && uq == u) = false := by simp [h1]
      rw [hbeq, if_neg Bool.false_ne_true, List.append_nil]
      rfl
  | cons r rest =>
    have hc : pairCount t pq uq ≠ 0 := by rw [pairCount, hsel]; simp
    simp only []
    rw [pairCount, selectLike_update, List.length_map]
    rw [if_neg (fun h => hc h.2.2)]
    rfl

/-- One toggle never decreases any pair's row count. -/
lemma pairCount_toggle_le (t : LikesTable) (pq uq p u : JSValue) :
    pairCount t p u ≤ pairCount (toggleCore t pq uq).1 p u := by
  rw [pairCount_toggleCore]
  split <;> omega

/-- The full handler never decreases any pair's row count. -/
lemma pairCount_likeHandler_le (t : LikesTable) (b : LikeBody) (p u : JSValue) :
    pairCount t p u ≤ pairCount (likeHandler t b).1 p u := by
  rcases b with ⟨bp, bu⟩
  cases bp with
  | none => simp [likeHandler]
  | some p' =>
    cases bu with
    | none => simp [likeHandler]
    | some u' =>
      by_cases h : p'.truthy && u'.truthy
      · simpa [likeHandler, h] using pairCount_toggle_le t p' u' p u
      · simp [likeHandler, h]

/-- One toggle preserves the at-most-one-row-per-pair invariant. -/
lemma atMostOne_toggle (t : LikesTable) (pq uq : JSValue)
    (h : ∀ p u, pairCount t p u ≤ 1) (p u : JSValue) :
    pairCount (toggleCore t pq uq).1 p u ≤ 1 := by
  rw [pairCount_toggleCore]
  split
  · next hcond =>
    obtain ⟨h1, h2, h3⟩ := hcond
    subst h1; subst h2
    omega
  · exact h p u

/-- The full handler preserves the at-most-one-row-per-pair invariant. -/
lemma atMostOne_likeHandler (t : LikesTable) (b : LikeBody)
    (h : ∀ p u, pairCount t p u ≤ 1) (p u : JSValue) :
    pairCount (likeHandler t b).1 p u ≤ 1 := by
  rcases b with ⟨bp, bu⟩
  cases bp with
  | none => simpa [likeHandler] using h p u
  | some p' =>
    cases bu with
    | none => simpa [likeHandler] using h p u
    | some u' =>
      by_cases hv : p'.truthy && u'.truthy
      · simpa [likeHandler, hv] using atMostOne_toggle t p' u' h p u
      · simpa [likeHandler, hv] using h p u

/-- Any run of like requests preserves the invariant. -/
lemma atMostOne_runLike (bs : List LikeBody) :
    ∀ t : LikesTable, (∀ p u, pairCount t p u ≤ 1) →
      ∀ p u, pairCount (runLike t bs) p u ≤ 1 := by
  induction bs with
  | nil => intro t h p u; exact h p u
  | cons b bs ih =>
    intro t h p u
    exact ih (likeHandler t b).1 (atMostOne_likeHandler t b h) p u

/-- Exact row count of a pair after a run of toggles: it becomes (and
stays) 1 from the first toggle of a pair that had no row, and is otherwise
unchanged. -/
lemma pairCount_runToggles (ops : List (JSValue × JSValue)) :
    ∀ (t : LikesTable) (p u : JSValue),
      pairCount (runToggles t ops) p u =
        if pairCount t p u = 0 ∧ (p, u) ∈ ops then 1 else pairCount t p u := by
  induction ops with
  | nil => intro t p u; simp [runToggles]
  | cons op ops ih =>
    intro t p u
    obtain ⟨pq, uq⟩ := op
    rw [runToggles, ih, pairCount_toggleCore]
    by_cases hpq : (pq, uq) = (p, u)
    · cases hpq
      by_cases h3 : pairCount t p u = 0
      · have hcond : p = p ∧ u = u ∧ pairCount t p u = 0 := ⟨rfl, rfl, h3⟩
        rw [if_pos hcond]
        have hne : ¬(pairCount t p u + 1 = 0 ∧ (p, u) ∈ ops) := fun hx => by omega
        rw [if_neg hne]
        have hcond2 : pairCount t p u = 0 ∧ (p, u) ∈ (p, u) :: ops :=
          ⟨h3, List.mem_cons_self _ _⟩
        rw [if_pos hcond2]
        omega
      · have hne1 : ¬(p = p ∧ u = u ∧ pairCount t p u = 0) := fun hx => h3 hx.2.2
        rw [if_neg hne1]
        have hna : ¬(pairCount t p u = 0 ∧ (p, u) ∈ ops) := fun hx => h3 hx.1
        have hnb : ¬(pairCount t p u = 0 ∧ (p, u) ∈ (p, u) :: ops) := fun hx => h3 hx.1
        rw [if_neg hna, if_neg hnb]
    · have hne : ¬(pq = p ∧ uq = u ∧ pairCount t pq uq = 0) := by
        rintro ⟨rfl, rfl, _⟩
        exact hpq rfl
      rw [if_neg hne]
      have hmem : ((p, u) ∈ (pq, uq) :: ops) ↔ ((p, u) ∈ ops) := by
        rw [List.mem_cons]
        constructor
        · rintro (heq | hmm)
          · exact absurd heq.symm hpq
          · exact hmm
        · exact Or.inr
      simp only [hmem]

/-- Iterating the toggle on a pair with no prior row: after `n + 1`
toggles exactly one row exists, created with the first `nextId`, and its
`liked` flag is the parity of the number of toggles. -/
lemma toggleIter_fresh (t : LikesTable) (p u : JSValue)
    (hfresh : selectLike t p u = []) :
    ∀ n : Nat, selectLike (toggleIter t p u (n + 1)) p u =
      [⟨t.nextId, p, u, decide ((n + 1) % 2 = 1)⟩] := by
  intro n
  induction n with
  | zero =>
    show selectLike (toggleCore (toggleIter t p u 0) p u).1 p u = _
    show selectLike (toggleCore t p u).1 p u = _
    unfold toggleCore
    rw [hfresh]
    simp only []
    rw [selectLike_insert, hfresh]
    simp
  | succ m ih =>
    show selectLike (toggleCore (toggleIter t p u (m + 1)) p u).1 p u = _
    unfold toggleCore
    rw [ih]
    simp only []
    rw [selectLike_update, ih]
    simp only [List.map_cons, List.map_nil, beq_self_eq_true, if_pos]
    have hparity : (!decide ((m + 1) % 2 = 1)) = decide ((m + 1 + 1) % 2 = 1) := by
      rw [← decide_not, decide_eq_decide]
      omega
    rw [hparity]

/-! ## Lemmas about the schema guard -/

/-- After `CREATE TABLE IF NOT EXISTS t`, the table `t` exists. -/
lemma hasTable_create_self (s : Schema) (t : TableSpec) :
    hasTable (createTableIfNotExists s t) t.name = true := by
  unfold createTableIfNotExists
  split
  · next h => exact h
  · unfold hasTable
    rw [List.any_append]
    simp [hasTable]

/-- `CREATE TABLE IF NOT EXISTS` never removes an existing table. -/
lemma hasTable_create_mono (s : Schema) (t' : TableSpec) (n : String)
    (h : hasTable s n = true) :
    hasTable (createTableIfNotExists s t') n = true := by
  unfold createTableIfNotExists
  split
  · exact h
  · unfold hasTable at h ⊢
    rw [List.any_append]
    simp [h]

/-- `CREATE TABLE IF NOT EXISTS` is a no-op when the table exists. -/
lemma create_noop (s : Schema) (t : TableSpec) (h : hasTable s t.name = true) :
    createTableIfNotExists s t = s := by
  unfold createTableIfNotExists
  simp [h]

/-- `CREATE TABLE IF NOT EXISTS` only ever appends: the prior schema is
kept verbatim, so no existing table is dropped or altered. -/
lemma create_append (s : Schema) (t : TableSpec) :
    ∃ created, createTableIfNotExists s t = s ++ created := by
  unfold createTableIfNotExists
  split
  · exact ⟨[], by simp⟩
  · exact ⟨[t], rfl⟩

/-- After ensureTables all three of its tables exist. -/
lemma ensureTables_has (s : Schema) :
    hasTable (ensureTables s) "users" = true ∧
    hasTable (ensureTables s) "properties" = true ∧
    hasTable (ensureTables s) "property_likes" = true := by
  refine ⟨?_, ?_, ?_⟩ <;> unfold ensureTables
  · exact hasTable_create_mono _ _ _
      (hasTable_create_mono _ _ _ (hasTable_create_self s usersTable))
  · exact hasTable_create_mono _ _ _ (hasTable_create_self _ propertiesTable)
  · exact hasTable_create_self _ propertyLikesTable

/-- A run of like requests never decreases any pair's row count. -/
lemma pairCount_runLike_le (bs : List LikeBody) :
    ∀ (t : LikesTable) (p u : JSValue),
      pairCount t p u ≤ pairCount (runLike t bs) p u := by
  induction bs with
  | nil => intro t p u; exact Nat.le_refl _
  | cons b bs ih =>
    intro t p u
    exact Nat.le_trans (pairCount_likeHandler_le t b p u) (ih (likeHandler t b).1 p u)

/-- A pair is in the absent state exactly when it has no row. -/
lemma likedState_none_iff (t : LikesTable) (p u : JSValue) :
    likedState t p u = none ↔ pairCount t p u = 0 := by
  unfold likedState pairCount
  cases selectLike t p u <;> simp

/-! ## The claims -/

/-- Claim C1: toggleLike, given truthy identifiers, follows the spec's
algorithm exactly: with no record for the pair it appends one row with
`liked = true` and answers 200 with `liked = true`; with an existing
record it rewrites that row's `liked` in place to the negation of the
stored value (a map over the rows — same rows, same ids, no insertion)
and answers with that negated value; in both cases the response carries
the pair's identifiers and the resulting boolean. -/
theorem like_toggle_follows_contract (t : LikesTable) (p u : JSValue)
    (hp : p.truthy = true) (hu : u.truthy = true) :
    (selectLike t p u = [] →
      likeHandler t ⟨some p, some u⟩ =
        ({ rows := t.rows ++ [⟨t.nextId, p, u, true⟩], nextId := t.nextId + 1 },
          .success p u true)) ∧
    (∀ r rest, selectLike t p u = r :: rest →
      likeHandler t ⟨some p, some u⟩ =
        ({ rows := t.rows.map fun x =>
              if x.id == r.id then { x with liked := !r.liked } else x,
            nextId := t.nextId },
          .success p u (!r.liked))) := by
  have hv : (p.truthy && u.truthy) = true := by rw [hp, hu]; rfl
  have hred : likeHandler t ⟨some p, some u⟩ =
      ((toggleCore t p u).1, .success p u (toggleCore t p u).2) := by
    unfold likeHandler
    simp [hv]
  constructor
  · intro hfresh
    rw [hred]
    unfold toggleCore
    rw [hfresh]
    rfl
  · intro r rest hsel
    rw [hred]
    unfold toggleCore
    rw [hsel]
    rfl

/-- Witness for C1: on the empty store, toggling pair (5, 9) inserts the
row; on the store holding that row with `liked = true`, toggling flips it
to `false` in place. -/
theorem like_toggle_follows_contract_witness :
    likeHandler emptyLikes ⟨some (.num 5), some (.num 9)⟩ =
      ({ rows := [⟨1, .num 5, .num 9, true⟩], nextId := 2 },
        .success (.num 5) (.num 9) true) ∧
    likeHandler { rows := [⟨1, .num 5, .num 9, true⟩], nextId := 2 }
        ⟨some (.num 5), some (.num 9)⟩ =
      ({ rows := [⟨1, .num 5, .num 9, false⟩], nextId := 2 },
        .success (.num 5) (.num 9) false) := by
  constructor
  · have h := (like_toggle_follows_contract emptyLikes (.num 5) (.num 9)
      (by decide) (by decide)).1 rfl
    rw [h]
    decide
  · have h := (like_toggle_follows_contract
      { rows := [⟨1, .num 5, .num 9, true⟩], nextId := 2 } (.num 5) (.num 9)
      (by decide) (by decide)).2 ⟨1, .num 5, .num 9, true⟩ [] (by decide)
    rw [h]
    decide

/-- Claim C2: for every pair and every sequence of like requests starting
from the empty store, at most one `property_likes` row exists for the
pair at every point; over validated toggles the count is exactly 1 for
every pair toggled at least once and 0 otherwise, so the first toggle
creates one row and later toggles never create a second. -/
theorem likes_at_most_one_row_per_pair :
    (∀ (bs : List LikeBody) (p u : JSValue),
        pairCount (runLike emptyLikes bs) p u ≤ 1) ∧
    (∀ (ops : List (JSValue × JSValue)) (p u : JSValue),
        pairCount (runToggles emptyLikes ops) p u =
          if (p, u) ∈ ops then 1 else 0) := by
  constructor
  · intro bs p u
    exact atMostOne_runLike bs emptyLikes (fun _ _ => by simp [pairCount, selectLike, emptyLikes]) p u
  · intro ops p u
    rw [pairCount_runToggles]
    have h0 : pairCount emptyLikes p u = 0 := rfl
    rw [h0]
    simp

/-- Claim C4: toggling a fresh pair N ≥ 1 times returns, and leaves
stored, `liked = true` for odd N and `liked = false` for even N. -/
theorem like_toggle_parity (t : LikesTable) (p u : JSValue) (N : Nat)
    (hfresh : selectLike t p u = []) (hN : 1 ≤ N) :
    likedState (toggleIter t p u N) p u = some (decide (N % 2 = 1)) ∧
    (toggleCore (toggleIter t p u (N - 1)) p u).2 = decide (N % 2 = 1) := by
  obtain ⟨n, rfl⟩ : ∃ n, N = n + 1 := ⟨N - 1, by omega⟩
  constructor
  · unfold likedState
    rw [toggleIter_fresh t p u hfresh n]
  · rw [Nat.add_sub_cancel]
    cases n with
    | zero =>
      show (toggleCore t p u).2 = _
      unfold toggleCore
      rw [hfresh]
      rfl
    | succ m =>
      unfold toggleCore
      rw [toggleIter_fresh t p u hfresh m]
      simp only []
      rw [← decide_not, decide_eq_decide]
      omega

/-- Witness for C4: three toggles of the fresh pair (5, 9) on the empty
store return and store `liked = true`. -/
theorem like_toggle_parity_witness :
    likedState (toggleIter emptyLikes (.num 5) (.num 9) 3) (.num 5) (.num 9) =
      some (decide (3 % 2 = 1)) ∧
    (toggleCore (toggleIter emptyLikes (.num 5) (.num 9) (3 - 1)) (.num 5) (.num 9)).2 =
      decide (3 % 2 = 1) :=
  like_toggle_parity emptyLikes (.num 5) (.num 9) 3 rfl (by decide)

/-- Claim C5: no run of like requests ever decreases a pair's row count,
so once a row exists the pair never returns to the absent state —
unliking is a stored `liked = false`, never row deletion. -/
theorem like_row_never_deleted (t : LikesTable) (bs : List LikeBody) (p u : JSValue) :
    pairCount t p u ≤ pairCount (runLike t bs) p u ∧
    (likedState (runLike t bs) p u = none → likedState t p u = none) := by
  refine ⟨pairCount_runLike_le bs t p u, fun h => ?_⟩
  rw [likedState_none_iff] at h ⊢
  have := pairCount_runLike_le bs t p u
  omega

/-- Witness for C5: a concrete request run does not lower the count of
pair (5, 9), and from an absent final state the initial state was absent. -/
theorem like_row_never_deleted_witness :
    pairCount emptyLikes (.num 5) (.num 9) ≤
      pairCount (runLike emptyLikes [⟨some (.num 5), some (.num 9)⟩]) (.num 5) (.num 9) ∧
    likedState emptyLikes (.num 5) (.num 9) = none :=
  ⟨(like_row_never_deleted emptyLikes [⟨some (.num 5), some (.num 9)⟩] (.num 5) (.num 9)).1,
   (like_row_never_deleted emptyLikes [] (.num 5) (.num 9)).2 rfl⟩

/-- Claim C6: a like request whose body lacks propertyId or userId gets a
400 response and the `property_likes` table is left exactly as it was —
no row inserted, no row modified. -/
theorem like_missing_field_rejected (t : LikesTable) (b : LikeBody)
    (h : b.propertyId = none ∨ b.userId = none) :
    (likeHandler t b).1 = t ∧ (likeHandler t b).2.status = 400 := by
  cases b with
  | mk bp bu =>
    rcases h with h | h
    · have hbp : bp = none := h
      subst hbp
      cases bu <;> simp [likeHandler, LikeResult.status]
    · have hbu : bu = none := h
      subst hbu
      cases bp <;> simp [likeHandler, LikeResult.status]

/-- Witness for C6: a body missing propertyId is rejected with 400 and no
write. -/
theorem like_missing_field_rejected_witness :
    (likeHandler emptyLikes ⟨none, some (.num 7)⟩).1 = emptyLikes ∧
    (likeHandler emptyLikes ⟨none, some (.num 7)⟩).2.status = 400 :=
  like_missing_field_rejected emptyLikes ⟨none, some (.num 7)⟩ (Or.inl rfl)

/-- Claim C10: the validation is JS truthiness, so `0` and the empty
string are falsy and rejected exactly like an absent field: the handler
answers 200 precisely when both fields are truthy, and on any falsy field
it performs no write and returns the very response of the
missing-field case. -/
theorem like_truthiness_precondition (t : LikesTable) (b : LikeBody) :
    (JSValue.truthy (.num 0) = false ∧ JSValue.truthy (.str "") = false) ∧
    ((likeHandler t b).2.status = 200 ↔
      optTruthy b.propertyId = true ∧ optTruthy b.userId = true) ∧
    ((optTruthy b.propertyId = false ∨ optTruthy b.userId = false) →
      likeHandler t b = (t, (likeHandler t ⟨none, none⟩).2)) := by
  refine ⟨⟨by decide, by decide⟩, ?_, ?_⟩
  · cases b with
    | mk bp bu =>
      cases bp with
      | none => simp [likeHandler, optTruthy, LikeResult.status]
      | some p' =>
        cases bu with
        | none => simp [likeHandler, optTruthy, LikeResult.status]
        | some u' =>
          by_cases hp : p'.truthy = true <;> by_cases hu : u'.truthy = true <;>
            simp [likeHandler, optTruthy, LikeResult.status, hp, hu]
  · intro h
    cases b with
    | mk bp bu =>
      rcases h with h | h
      · cases bp with
        | none => cases bu <;> simp [likeHandler]
        | some p' =>
          have hp : p'.truthy = false := h
          cases bu with
          | none => simp [likeHandler]
          | some u' => simp [likeHandler, hp]
      · cases bu with
        | none => cases bp <;> simp [likeHandler]
        | some u' =>
          have hu : u'.truthy = false := h
          cases bp with
          | none => simp [likeHandler]
          | some p' => simp [likeHandler, hu]

/-- Witness for C10: `propertyId = 0` is rejected with the exact
missing-field response and no write. -/
theorem like_truthiness_precondition_witness :
    likeHandler emptyLikes ⟨some (.num 0), some (.num 7)⟩ =
      (emptyLikes, (likeHandler emptyLikes ⟨none, none⟩).2) :=
  (like_truthiness_precondition emptyLikes ⟨some (.num 0), some (.num 7)⟩).2.2
    (Or.inl (by decide))

/-- Claim C7: the schema guard is idempotent and non-destructive: a
second call of any of the ensure functions leaves the schema of the first
call unchanged, and every call only ever appends new tables, keeping the
pre-existing schema verbatim (no drop, no column alteration); in the
model `CREATE TABLE IF NOT EXISTS` is total, so a call on an existing
table is a no-op rather than an error. -/
theorem schema_guard_idempotent (s : Schema) :
    (ensureTables (ensureTables s) = ensureTables s ∧
     ensurePropertiesTable (ensurePropertiesTable s) = ensurePropertiesTable s ∧
     ensureUsersTable (ensureUsersTable s) = ensureUsersTable s ∧
     ensureContactsTable (ensureContactsTable s) = ensureContactsTable s) ∧
    ((∃ created, ensureTables s = s ++ created) ∧
     (∃ created, ensurePropertiesTable s = s ++ created) ∧
     (∃ created, ensureUsersTable s = s ++ created) ∧
     (∃ created, ensureContactsTable s = s ++ created)) := by
  refine ⟨⟨?_, ?_, ?_, ?_⟩, ⟨?_, ?_, ?_, ?_⟩⟩
  · have h := ensureTables_has s
    show createTableIfNotExists (createTableIfNotExists
      (createTableIfNotExists (ensureTables s) usersTable) propertiesTable)
      propertyLikesTable = ensureTables s
    rw [create_noop _ usersTable h.1, create_noop _ propertiesTable h.2.1,
      create_noop _ propertyLikesTable h.2.2]
  · exact create_noop _ propertiesTable (hasTable_create_self s propertiesTable)
  · exact create_noop _ usersTable (hasTable_create_self s usersTable)
  · exact create_noop _ contactsTable (hasTable_create_self s contactsTable)
  · obtain ⟨a, ha⟩ := create_append s usersTable
    obtain ⟨b, hb⟩ := create_append (createTableIfNotExists s usersTable) propertiesTable
    obtain ⟨c, hc⟩ := create_append
      (createTableIfNotExists (createTableIfNotExists s usersTable) propertiesTable)
      propertyLikesTable
    refine ⟨a ++ (b ++ c), ?_⟩
    show createTableIfNotExists (createTableIfNotExists
      (createTableIfNotExists s usersTable) propertiesTable) propertyLikesTable = _
    rw [hc, hb, ha, List.append_assoc, List.append_assoc]
  · exact create_append s propertiesTable
  · exact create_append s usersTable
  · exact create_append s contactsTable

/-- Claim C3 (violated by the code): the toggle is a separate read then
write, so two concurrent toggles of pair (5, 9) that both read before
either writes leave `liked = true` when the pair's stored state was
`liked = false` (after two prior toggles) — while every serial ordering
of the four identical toggles from the absent state leaves
`liked = false`.  The final raced state matches no serialization: a lost
update.  The first conjunct ties the phase-split model to the handler's
algorithm. -/
theorem like_toggle_race_lost_update :
    (∀ (t : LikesTable) (p u : JSValue),
        toggleCore t p u = toggleWrite t p u (toggleRead t p u)) ∧
    likedState
        (racedToggles (toggleIter emptyLikes (.num 5) (.num 9) 2) (.num 5) (.num 9))
        (.num 5) (.num 9) = some true ∧
    runToggles emptyLikes
        (List.replicate 4 ((JSValue.num 5), (JSValue.num 9))) =
      toggleIter emptyLikes (.num 5) (.num 9) 4 ∧
    likedState (toggleIter emptyLikes (.num 5) (.num 9) 4) (.num 5) (.num 9) =
      some false := by
  refine ⟨fun t p u => rfl, by decide, by decide, by decide⟩

/-- Counterexample to claim C8 as stated: the catch branches of
properties.js and the register.js login variant place the thrown error's
own message in the response body, so a store failure whose message names
an internal host is echoed to the client — the body is not the generic
message. -/
theorem catch_leaks_error_message :
    catchResponse ⟨some "connect ECONNREFUSED 10.0.0.5:5432"⟩ =
      (500, "connect ECONNREFUSED 10.0.0.5:5432") ∧
    "connect ECONNREFUSED 10.0.0.5:5432" ≠ "Server error" := by
  exact ⟨rfl, by decide⟩

/-- Claim C8 as amended: a store failure is reported as 500, but the body
carries the underlying error's message whenever that message is a
non-empty string, and falls back to the generic "Server error" only when
the error has no usable message. -/
theorem catch_response_amended (e : StoreError) :
    (catchResponse e).1 = 500 ∧
    ((∃ m, e.message = some m ∧ m ≠ "" ∧ (catchResponse e).2 = m) ∨
     ((e.message = none ∨ e.message = some "") ∧
       (catchResponse e).2 = "Server error")) := by
  refine ⟨rfl, ?_⟩
  rcases e with ⟨m⟩
  cases m with
  | none => exact Or.inr ⟨Or.inl rfl, rfl⟩
  | some s =>
    by_cases h : s = ""
    · subst h
      exact Or.inr ⟨Or.inr rfl, rfl⟩
    · refine Or.inl ⟨s, rfl, h, ?_⟩
      show catchBody ⟨some s⟩ = s
      unfold catchBody
      simp only []
      rw [if_neg (fun hE => h ((String.isEmpty_iff s).mp hE))]

/-- Counterexample to claim C9 as stated: in the register.js login
variant a wrong password on an existing user answers 401 "Invalid
password" while an unknown username answers 404 "User not found" — the
two responses differ, so the response does reveal which credential
failed. -/
theorem login_variant_reveals_field :
    loginVariantB [⟨1, "alice", some "alice@x.com", "secret", none⟩]
        (some "alice") none (some "wrong") = ⟨401, "Invalid password"⟩ ∧
    loginVariantB [⟨1, "alice", some "alice@x.com", "secret", none⟩]
        (some "bob") none (some "wrong") = ⟨404, "User not found"⟩ ∧
    (⟨401, "Invalid password"⟩ : LoginResponse) ≠ ⟨404, "User not found"⟩ := by
  refine ⟨by decide, by decide, by decide⟩

/-- Claim C9 as amended: a wrong password on an existing user yields 401
in both login implementations; login.js answers the identical 401
"Invalid credentials" for an unknown user, revealing nothing, but the
register.js login variant answers 401 "Invalid password" versus 404
"User not found", revealing which field was wrong. -/
theorem login_responses_amended :
    (∀ (users : List UserRow) (x pw : String) (r : UserRow) (rest : List UserRow),
        x.isEmpty = false → pw.isEmpty = false →
        usersWhereBoth users (some x) none = r :: rest →
        r.password ≠ pw →
        loginHandler users (some x) none (some pw) = ⟨401, "Invalid credentials"⟩) ∧
    (∀ (users : List UserRow) (x pw : String),
        x.isEmpty = false → pw.isEmpty = false →
        usersWhereBoth users (some x) none = [] →
        loginHandler users (some x) none (some pw) = ⟨401, "Invalid credentials"⟩) ∧
    (∀ (users : List UserRow) (x pw : String) (r : UserRow) (rest : List UserRow),
        x.isEmpty = false → pw.isEmpty = false →
        usersWhereEither users x = r :: rest →
        r.password ≠ pw →
        loginVariantB users (some x) none (some pw) = ⟨401, "Invalid password"⟩) ∧
    (∀ (users : List UserRow) (x pw : String),
        x.isEmpty = false → pw.isEmpty = false →
        usersWhereEither users x = [] →
        loginVariantB users (some x) none (some pw) = ⟨404, "User not found"⟩) := by
  refine ⟨?_, ?_, ?_, ?_⟩
  · intro users x pw r rest hx hpw hsel hne
    simp [loginHandler, strTruthy, hx, hpw, hsel, hne]
  · intro users x pw hx hpw hsel
    simp [loginHandler, strTruthy, hx, hpw, hsel]
  · intro users x pw r rest hx hpw hsel hne
    simp [loginVariantB, firstTruthy, strTruthy, hx, hpw, hsel, hne]
  · intro users x pw hx hpw hsel
    simp [loginVariantB, firstTruthy, strTruthy, hx, hpw, hsel]

/-- Witness for the amended C9, exercising all four branches on a
one-user store. -/
theorem login_responses_amended_witness :
    loginHandler [⟨1, "alice", some "alice@x.com", "secret", none⟩]
        (some "alice") none (some "wrong") = ⟨401, "Invalid credentials"⟩ ∧
    loginHandler [⟨1, "alice", some "alice@x.com", "secret", none⟩]
        (some "bob") none (some "wrong") = ⟨401, "Invalid credentials"⟩ ∧
    loginVariantB [⟨1, "alice", some "alice@x.com", "secret", none⟩]
        (some "alice") none (some "wrong") = ⟨401, "Invalid password"⟩ ∧
    loginVariantB [⟨1, "alice", some "alice@x.com", "secret", none⟩]
        (some "bob") none (some "wrong") = ⟨404, "User not found"⟩ :=
  ⟨login_responses_amended.1 [⟨1, "alice", some "alice@x.com", "secret", none⟩]
      "alice" "wrong" ⟨1, "alice", some "alice@x.com", "secret", none⟩ []
      (by decide) (by decide) (by decide) (by decide),
   login_responses_amended.2.1 [⟨1, "alice", some "alice@x.com", "secret", none⟩]
      "bob" "wrong" (by decide) (by decide) (by decide),
   login_responses_amended.2.2.1 [⟨1, "alice", some "alice@x.com", "secret", none⟩]
      "alice" "wrong" ⟨1, "alice", some "alice@x.com", "secret", none⟩ []
      (by decide) (by decide) (by decide) (by decide),
   login_responses_amended.2.2.2 [⟨1, "alice", some "alice@x.com", "secret", none⟩]
      "bob" "wrong" (by decide) (by decide) (by decide)⟩

end Nested
